import Mathlib

/-!
Verification development for the medical-chatbot repository.

The repository is a Flask application (`app.py`) over SQLAlchemy models
(`src/database.py`), LangChain retrieval helpers (`src/helper.py`) and an
advanced-RAG module (`src/rag_advanced.py`).  This file gives a shallow
embedding of the data model and of the operations relevant to the
retrieval/authorization pipeline, the advanced-RAG orchestration, and the
mutation endpoints, and proves or refutes the specification's claims about
them.

External services (the LLM, the JSON parser of the standard library, the
similarity searches against the vector store, the filesystem and UUID
generation) are modelled as explicit function/value parameters ("oracles");
everything the repository's own code computes is translated faithfully.
-/

namespace MedicalChatbot

/-! ## Python values and metadata dictionaries

Passage metadata in the code is a Python `dict` with string keys whose values
are `None`, strings or integers on every path the claims touch.  We model the
values by `PyVal` and a dictionary by an association list with the first
binding of a key the authoritative one (Python dicts have unique keys, so any
list with unique keys represents a dict faithfully). -/

inductive PyVal where
  | vNone : PyVal
  | vStr (s : String) : PyVal
  | vInt (n : Int) : PyVal
deriving DecidableEq, Repr

abbrev Metadata := List (String × PyVal)

/-! ### Python string builtins

The source calls Python `str` methods (`startswith`, `endswith`, `lower`,
`strip`, `replace`, `split`, slicing).  These are runtime builtins external
to the repository; we model them here by structurally recursive functions on
the character list of a `String` (UTF-8 byte positions are immaterial to
every claim). -/

/-- Python `s.startswith(p)`. -/
def pyStartsWith (s p : String) : Bool :=
  p.data.isPrefixOf s.data

/-- Python `s.endswith(p)`. -/
def pyEndsWith (s p : String) : Bool :=
  p.data.isSuffixOf s.data

/-- Python `s.lower()` (ASCII case mapping suffices for the uses here). -/
def pyLower (s : String) : String :=
  ⟨s.data.map Char.toLower⟩

/-- Python `s.strip()`: remove leading and trailing whitespace. -/
def pyStrip (s : String) : String :=
  ⟨((s.data.dropWhile Char.isWhitespace).reverse.dropWhile Char.isWhitespace).reverse⟩

/-- Fuel-driven core of `str.replace`: replace every occurrence of `pat`
(non-empty in every use below) by `rep`, scanning left to right.  The fuel
only guarantees structural recursion; `fuel ≥ length + 1` makes it total on
the actual input. -/
def pyReplaceAux (pat rep : List Char) : Nat → List Char → List Char
  | 0, l => l
  | _ + 1, [] => []
  | fuel + 1, c :: rest =>
    if pat.isPrefixOf (c :: rest) then
      rep ++ pyReplaceAux pat rep fuel ((c :: rest).drop pat.length)
    else
      c :: pyReplaceAux pat rep fuel rest

/-- Python `s.replace(pat, rep)` for non-empty `pat`. -/
def pyReplace (s pat rep : String) : String :=
  ⟨pyReplaceAux pat.data rep.data (s.data.length + 1) s.data⟩

/-- Core of argument-less `str.split`: words separated by whitespace runs,
no empty fields.  `acc` holds the current word reversed. -/
def pySplitAux : List Char → List Char → List String
  | [], acc => if acc.isEmpty then [] else [⟨acc.reverse⟩]
  | c :: rest, acc =>
    if c.isWhitespace then
      if acc.isEmpty then pySplitAux rest [] else ⟨acc.reverse⟩ :: pySplitAux rest []
    else
      pySplitAux rest (c :: acc)

/-- Python `s.split()` (no separator argument). -/
def pySplit (s : String) : List String :=
  pySplitAux s.data []

/-- `m[k]` as an `Option`: the first binding of `k`, if any. -/
def dictLookup (m : Metadata) (k : String) : Option PyVal :=
  (m.find? (fun kv => kv.1 = k)).map (·.2)

/-- Python `m.get(k)`: `None` when the key is absent. -/
def dictGet (m : Metadata) (k : String) : PyVal :=
  (dictLookup m k).getD .vNone

/-- Python `m.get(k, d)`: default `d` when the key is absent. -/
def dictGetD (m : Metadata) (k : String) (d : PyVal) : PyVal :=
  (dictLookup m k).getD d

/-- A LangChain `Document`: retrieved passage text plus metadata.
(Named `Doc` to avoid clashing with the ORM `Document` row model below.) -/
structure Doc where
  page_content : String
  metadata : Metadata
deriving DecidableEq, Repr

/-! ## `src/helper.py` -/

/-- `filter_to_minimal_docs` (src/helper.py lines 28-43): rebuild every
document with only `source` (via `metadata.get("source")`) and `page`
(via `metadata.get("page", 0)`) in its metadata. -/
def filter_to_minimal_docs (docs : List Doc) : List Doc :=
  docs.map (fun doc =>
    { page_content := doc.page_content,
      metadata := [("source", dictGet doc.metadata "source"),
                   ("page", dictGetD doc.metadata "page" (.vInt 0))] })

/-! ## Retrieval post-filter (`app.py` chat_stream, lines 256 and 273-278) -/

/-- `allowed_user_ids = {str(user_id), "global", None}` (app.py line 256). -/
def allowed_user_ids (user_id : Nat) : List PyVal :=
  [.vStr (toString user_id), .vStr "global", .vNone]

/-- `filter_allowed` (app.py lines 273-278): keep the docs whose
`metadata.get('user_id')` is in `allowed_user_ids`. -/
def filter_allowed (user_id : Nat) (docs : List Doc) : List Doc :=
  docs.filter (fun d => (allowed_user_ids user_id).contains (dictGet d.metadata "user_id"))

/-- `filtered_retrieve` (app.py lines 281-291), the retriever handed to the
advanced-RAG path: post-filtered global results, extended by post-filtered
user-scoped results when the user retriever exists (`userActive`).
`baseSearch`/`userSearch` are the two external similarity searches. -/
def filtered_retrieve (user_id : Nat) (baseSearch userSearch : String → List Doc)
    (userActive : Bool) (query : String) : List Doc :=
  let docs : List Doc := []
  let docs := docs ++ filter_allowed user_id (baseSearch query)
  if userActive then docs ++ filter_allowed user_id (userSearch query) else docs

/-- The simple (non-advanced) retrieval block of `generate` (app.py lines
300-309): same structure as `filtered_retrieve`, inlined in the source. -/
def simple_retrieve (user_id : Nat) (baseSearch userSearch : String → List Doc)
    (userActive : Bool) (query : String) : List Doc :=
  let retrieved_docs : List Doc := []
  let retrieved_docs := retrieved_docs ++ filter_allowed user_id (baseSearch query)
  if userActive then retrieved_docs ++ filter_allowed user_id (userSearch query)
  else retrieved_docs

/-! ## `src/rag_advanced.py`

The LLM round-trips are modelled as oracles:
- `llmRewrite` : the query-rewriting chain (prompt | llm | StrOutputParser),
- `llmAnalyze` : the multi-hop classification chain, mapping (question,
  context) to the model's raw text output,
- `jsonLoads`  : Python's `json.loads` applied to the sub-question text,
  `none` standing for a raised exception, and
- `llmSynth`   : the synthesis chain, mapping (original query, formatted
  sub-questions, combined context) to the final answer. -/

/-- `rewrite_query` (rag_advanced.py lines 26-31): invoke the rewriting chain
and strip the result. -/
def rewrite_query (llmRewrite : String → String) (original_query : String) : String :=
  pyStrip (llmRewrite original_query)

/-- Result dictionary of `analyze_query_complexity`: key `type` plus either
`answer` or `sub_questions`. -/
structure QCResult where
  type : String
  answer : Option String
  sub_questions : Option (List String)
deriving DecidableEq, Repr

/-- `analyze_query_complexity` (rag_advanced.py lines 50-78).  The raw model
output is `llmAnalyze question context`; `result.replace(p, "")` replaces
every occurrence of `p` (Python `str.replace`), and `.strip()` is `trim`. -/
def analyze_query_complexity (llmAnalyze : String → String → String)
    (jsonLoads : String → Option (List String))
    (question context : String) : QCResult :=
  let result := llmAnalyze question context
  if pyStartsWith result "DIRECT:" then
    { type := "direct", answer := some (pyStrip (pyReplace result "DIRECT:" "")),
      sub_questions := none }
  else if pyStartsWith result "MULTI_HOP:" then
    match jsonLoads (pyStrip (pyReplace result "MULTI_HOP:" "")) with
    | some sub_questions =>
      { type := "multi_hop", answer := none, sub_questions := some sub_questions }
    | none =>
      { type := "direct",
        answer := some "Unable to parse multi-hop analysis. Proceeding with direct answer.",
        sub_questions := none }
  else
    { type := "direct", answer := some result, sub_questions := none }

/-- Result of `multi_hop_reasoning`. -/
structure MHResult where
  answer : String
  reasoning_chain : List String
  context_used : List Doc
deriving DecidableEq, Repr

/-- `multi_hop_reasoning` (rag_advanced.py lines 81-144).  The hop loop
iterates `analysis["sub_questions"][:max_hops]` accumulating `all_contexts`
and `reasoning_chain`; the in-loop `break` at `i >= max_hops - 1` only fires
on the last index of the already-truncated slice, so the slice alone
determines the explored sub-questions.  The accumulation is the `foldl`. -/
def multi_hop_reasoning (llmRewrite : String → String)
    (llmAnalyze : String → String → String) (jsonLoads : String → Option (List String))
    (llmSynth : String → String → String → String)
    (retriever : String → List Doc) (original_query : String)
    (max_hops : Nat := 2) : MHResult :=
  let rewritten_query := rewrite_query llmRewrite original_query
  let initial_docs := retriever rewritten_query
  let initial_context := String.intercalate "\n\n" (initial_docs.map (·.page_content))
  let analysis := analyze_query_complexity llmAnalyze jsonLoads rewritten_query initial_context
  if analysis.type = "direct" then
    { answer := analysis.answer.getD "",
      reasoning_chain := [rewritten_query],
      context_used := initial_docs }
  else
    let explored := (analysis.sub_questions.getD []).take max_hops
    let all_contexts := explored.foldl (fun acc sub_question => acc ++ retriever sub_question)
      initial_docs
    let reasoning_chain := rewritten_query :: explored
    let combined_context := String.intercalate "\n\n" (all_contexts.map (·.page_content))
    let final_answer := llmSynth original_query
      (String.intercalate "\n" (explored.map (fun q => "- " ++ q)))
      combined_context
    { answer := final_answer,
      reasoning_chain := reasoning_chain,
      context_used := all_contexts }

/-! ## `src/database.py`: the relational rows

Only fields the claims touch are modelled (timestamps are immaterial to every
claim and are omitted).  `relevance_score` is a `Float` column used purely as
stored data; we model it as `Rat`. -/

structure DocumentRow where
  id : Nat
  user_id : Nat
  filename : String
  original_filename : String
  file_path : String
  file_size : Nat
  is_indexed : Bool
deriving DecidableEq, Repr

structure DocumentChunkRow where
  id : Nat
  document_id : Nat
  chunk_index : Nat
  page_number : Option Int
  content_preview : String
deriving DecidableEq, Repr

structure ConversationRow where
  id : Nat
  user_id : Nat
deriving DecidableEq, Repr

structure MessageRow where
  id : Nat
  conversation_id : Nat
  role : String
  content : String
deriving DecidableEq, Repr

structure CitationRow where
  id : Nat
  message_id : Nat
  document_id : Option Nat
  chunk_id : Option Nat
  page_number : Option Int
  relevance_score : Rat
  content_snippet : String
deriving DecidableEq, Repr

structure FeedbackRow where
  id : Nat
  user_id : Nat
  message_id : Nat
  rating : String
  comment : String
deriving DecidableEq, Repr

/-- The relational store. -/
structure DBState where
  documents : List DocumentRow
  chunks : List DocumentChunkRow
  conversations : List ConversationRow
  messages : List MessageRow
  citations : List CitationRow
  feedbacks : List FeedbackRow
deriving DecidableEq, Repr

/-- A fresh autoincrement primary key: one past the largest id in use. -/
def freshId (ids : List Nat) : Nat :=
  ids.foldr max 0 + 1

/-- Outcome of an endpoint body. -/
inductive Outcome where
  /-- A JSON response with this HTTP status code. -/
  | http (code : Nat)
  /-- The streaming generator reached its `done` event. -/
  | doneEvent
  /-- The streaming generator caught an exception and yielded an
  `error`-typed event. -/
  | errorEvent
  /-- An uncaught exception propagated out of the endpoint. -/
  | raised
deriving DecidableEq, Repr

/-- An endpoint run, with the SQLAlchemy session made explicit: `base` is the
last committed state, `cur` is the session's view including uncommitted
(pending/flushed) changes.  `commit` sets `base := cur`, `rollback` sets
`cur := base`; `cur ≠ base` on exit means uncommitted changes were left in
the session. -/
structure SessionOut where
  base : DBState
  cur : DBState
  outcome : Outcome
deriving DecidableEq, Repr

/-- SQLAlchemy `filter_by(page_number=p)` comparison against a nullable
integer column (`None` compares as SQL `IS NULL`). -/
def optIntToPy : Option Int → PyVal
  | none => .vNone
  | some n => .vInt n

/-- Store a Python value into a nullable integer column. -/
def pyToOptInt : PyVal → Option Int
  | .vInt n => some n
  | _ => none

/-! ## `delete_document` (app.py lines 627-688)

The Pinecone vector deletion and the file removal are external effects
wrapped in their own best-effort handling; they do not touch the relational
state and are not modelled.  The injected failure `commitOk = false` stands
for the final `db.session.commit()` raising; the endpoint's `except` block
rolls the session back and returns a 500. -/

def delete_document (st : DBState) (uid doc_id : Nat) (commitOk : Bool) : SessionOut :=
  match st.documents.find? (fun d => decide (d.id = doc_id ∧ d.user_id = uid)) with
  | none => ⟨st, st, .http 404⟩
  | some doc =>
    -- chunk_ids = [chunk.id for chunk in doc.chunks]
    let chunk_ids := (st.chunks.filter (fun c => decide (c.document_id = doc.id))).map (·.id)
    -- all_citations = citations (document_id match) ∪ chunk_citations (chunk_id match)
    let inAll := fun (c : CitationRow) =>
      decide (c.document_id = some doc.id) || chunk_ids.any (fun k => decide (c.chunk_id = some k))
    -- per-citation field nulling, applied to exactly the rows in all_citations
    let citations := st.citations.map (fun c =>
      if inAll c then
        { c with
          chunk_id := if chunk_ids.any (fun k => decide (c.chunk_id = some k)) then none
                      else c.chunk_id,
          document_id := if decide (c.document_id = some doc.id) then none
                         else c.document_id }
      else c)
    -- db.session.delete(doc): the `chunks` relationship cascades (all, delete-orphan)
    let cur : DBState := { st with
      citations := citations,
      chunks := st.chunks.filter (fun c => !decide (c.document_id = doc.id)),
      documents := st.documents.filter (fun d => !decide (d.id = doc.id)) }
    if commitOk then ⟨cur, cur, .http 200⟩ else ⟨st, st, .http 500⟩

/-! ## `cleanup_pinecone` (app.py lines 691-765)

Deletes every document of the user (the Pinecone delete-by-filter and file
removals are external), nulling citations exactly as `delete_document` does,
then commits once.  `commitOk = false` models the commit raising; the
`except` block rolls back and returns 500. -/

def cleanup_one_doc (acc : DBState) (doc : DocumentRow) : DBState :=
  let chunk_ids := (acc.chunks.filter (fun c => decide (c.document_id = doc.id))).map (·.id)
  let inAll := fun (c : CitationRow) =>
    decide (c.document_id = some doc.id) || chunk_ids.any (fun k => decide (c.chunk_id = some k))
  let citations := acc.citations.map (fun c =>
    if inAll c then
      { c with
        document_id := if decide (c.document_id = some doc.id) then none
                       else c.document_id,
        chunk_id := if chunk_ids.any (fun k => decide (c.chunk_id = some k)) then none
                    else c.chunk_id }
    else c)
  { acc with
    citations := citations,
    chunks := acc.chunks.filter (fun c => !decide (c.document_id = doc.id)),
    documents := acc.documents.filter (fun d => !decide (d.id = doc.id)) }

def cleanup_pinecone (st : DBState) (uid : Nat) (commitOk : Bool) : SessionOut :=
  let user_docs := st.documents.filter (fun d => decide (d.user_id = uid))
  let cur := user_docs.foldl cleanup_one_doc st
  if commitOk then ⟨cur, cur, .http 200⟩ else ⟨st, st, .http 500⟩

/-! ## `submit_feedback` (app.py lines 768-803)

There is no `try`/`except` in this endpoint: an exception from the final
`db.session.commit()` propagates (`Outcome.raised`) with the session's
pending changes in place.  `message.conversation` missing would raise an
attribute error; states produced by the app always have it. -/

/-- Update the first element satisfying `p` (SQLAlchemy `.first()` then
in-place mutation), leaving the rest untouched. -/
def updateFirst (p : α → Bool) (g : α → α) : List α → List α
  | [] => []
  | x :: xs => if p x then g x :: xs else x :: updateFirst p g xs

def submit_feedback (st : DBState) (uid : Nat) (message_id : Option Nat)
    (rating comment : String) (commitOk : Bool) : SessionOut :=
  -- `if not message_id or rating not in ['positive', 'negative']` (0 is falsy)
  if message_id = none ∨ message_id = some 0 ∨
      (rating ≠ "positive" ∧ rating ≠ "negative") then
    ⟨st, st, .http 400⟩
  else
    match message_id with
    | none => ⟨st, st, .http 400⟩
    | some mid =>
      match st.messages.find? (fun m => decide (m.id = mid)) with
      | none => ⟨st, st, .http 404⟩
      | some message =>
        match st.conversations.find? (fun cv => decide (cv.id = message.conversation_id)) with
        | none => ⟨st, st, .raised⟩
        | some conversation =>
          if conversation.user_id ≠ uid then ⟨st, st, .http 404⟩
          else
            let pair := fun (f : FeedbackRow) => decide (f.message_id = mid ∧ f.user_id = uid)
            let upd := fun (f : FeedbackRow) => { f with rating := rating, comment := comment }
            let newRow : FeedbackRow :=
              { id := freshId (st.feedbacks.map (·.id)), user_id := uid,
                message_id := mid, rating := rating, comment := comment }
            let cur :=
              match st.feedbacks.find? pair with
              | some _ => { st with feedbacks := updateFirst pair upd st.feedbacks }
              | none => { st with feedbacks := st.feedbacks ++ [newRow] }
            if commitOk then ⟨cur, cur, .http 200⟩ else ⟨st, cur, .raised⟩

/-! ## `upload_document` (app.py lines 480-624)

Externals as oracles: `loadedPdf` is the outcome of `load_single_pdf`
(`Except.error` = a raised exception), `splitFn` is the
`RecursiveCharacterTextSplitter` behind `text_split`, `unique_filename` /
`file_path` / `file_size` come from UUID generation and the filesystem,
`vecOk` is whether `vector_store.add_documents` succeeds, and `commitOk`
whether the final commit succeeds.  The per-chunk `clean_metadata`
preparation only shapes the payload sent to the vector store, not the
relational state or the response, and is not modelled.  Everything inside
the `try` that raises is caught by the `except` block, which rolls back and
returns a 500. -/

def upload_document (st : DBState) (uid : Nat) (file? : Option String)
    (unique_filename file_path : String) (file_size : Nat)
    (loadedPdf : Except String (List Doc)) (splitFn : List Doc → List Doc)
    (vecOk commitOk : Bool) : SessionOut :=
  match file? with
  | none => ⟨st, st, .http 400⟩
  | some filename =>
    if filename = "" then ⟨st, st, .http 400⟩
    else if !(pyEndsWith (pyLower filename) ".pdf") then ⟨st, st, .http 400⟩
    else
      match loadedPdf with
      | .error _ => ⟨st, st, .http 500⟩
      | .ok documents =>
        let filtered_docs := filter_to_minimal_docs documents
        let text_chunks := splitFn filtered_docs
        if text_chunks.length = 0 then ⟨st, st, .http 400⟩
        else
          let docId := freshId (st.documents.map (·.id))
          let doc : DocumentRow :=
            { id := docId, user_id := uid, filename := unique_filename,
              original_filename := filename, file_path := file_path,
              file_size := file_size, is_indexed := false }
          let chunkBase := freshId (st.chunks.map (·.id))
          let chunk_objects := (text_chunks.enum).map (fun ic =>
            { id := chunkBase + ic.1, document_id := docId, chunk_index := ic.1,
              page_number := pyToOptInt (dictGetD ic.2.metadata "page" (.vInt 0)),
              content_preview := ic.2.page_content.take 200 : DocumentChunkRow })
          if !vecOk then ⟨st, st, .http 500⟩
          else
            let cur : DBState := { st with
              documents := st.documents ++ [{ doc with is_indexed := true }],
              chunks := st.chunks ++ chunk_objects }
            if commitOk then ⟨cur, cur, .http 200⟩ else ⟨st, st, .http 500⟩

/-! ## The streaming generator `generate` (app.py lines 252-401)

`chat_stream` persists the user message and then runs the generator.  The
generator retrieves (simple or advanced path), streams the answer word by
word, adds the assistant message and one best-effort citation per retrieved
doc to the session, and commits.  Its `except` block (lines 396-401) only
yields an `error` event — it performs no `db.session.rollback()`.  We model
the commit raising with `commitOk = false`; in that case the pending
assistant message and citations are left in the session (`cur ≠ base`).

Oracles: the two similarity searches, the LLM chains, `json.loads`, and the
simple-path generation chain `llmChain (input, context)`. -/

/-- Python `str(...)` of a metadata value, as used in the f-string that
formats the context block. -/
def pyStr : PyVal → String
  | .vNone => "None"
  | .vStr s => s
  | .vInt n => toString n

/-- The `formatted_context` f-string join (app.py lines 317-325). -/
def format_context (retrieved_docs : List Doc) : String :=
  if retrieved_docs ≠ [] then
    String.intercalate "\n\n" ((retrieved_docs.enum).map (fun idoc =>
      "[Source " ++ toString (idoc.1 + 1) ++ "] " ++ idoc.2.page_content ++
      "\n(Source: " ++ pyStr (dictGetD idoc.2.metadata "source" (.vStr "Unknown")) ++
      ", Page: " ++ pyStr (dictGetD idoc.2.metadata "page" (.vStr "N/A")) ++ ")"))
  else "No relevant documents found in the uploaded files."

/-- One best-effort citation row (app.py lines 352-377): resolve the
passage's `source` back to a Document by `file_path`, then to a chunk by
`(document_id, page_number)`; unresolved references stay null. -/
def make_citation (st : DBState) (assistant_id cit_id : Nat) (doc : Doc) : CitationRow :=
  let source := dictGetD doc.metadata "source" (.vStr "Unknown")
  let page := dictGet doc.metadata "page"
  let doc_obj := st.documents.find? (fun d => decide (PyVal.vStr d.file_path = source))
  let doc_id := doc_obj.map (·.id)
  let chunk_id :=
    match doc_obj with
    | none => none
    | some d =>
      (st.chunks.find? (fun c =>
        decide (c.document_id = d.id) && decide (optIntToPy c.page_number = page))).map (·.id)
  { id := cit_id, message_id := assistant_id, document_id := doc_id,
    chunk_id := chunk_id, page_number := pyToOptInt page,
    relevance_score := (8 : Rat) / 10, content_snippet := doc.page_content.take 200 }

def generate (st : DBState) (user_id conversation_id : Nat) (user_message : String)
    (use_advanced_rag : Bool) (baseSearch userSearch : String → List Doc)
    (llmRewrite : String → String) (llmAnalyze : String → String → String)
    (jsonLoads : String → Option (List String))
    (llmSynth : String → String → String → String)
    (llmChain : String → String → String) (commitOk : Bool) : SessionOut :=
  -- user_retriever exists iff the user has indexed documents (lines 258-266)
  let userActive := st.documents.any (fun d => decide (d.user_id = user_id ∧ d.is_indexed = true))
  let retrieved_answer :=
    if use_advanced_rag then
      let result := multi_hop_reasoning llmRewrite llmAnalyze jsonLoads llmSynth
        (filtered_retrieve user_id baseSearch userSearch userActive) user_message 2
      (result.context_used, result.answer)
    else
      let rewritten_query := rewrite_query llmRewrite user_message
      let retrieved_docs := simple_retrieve user_id baseSearch userSearch userActive
        rewritten_query
      let formatted_context := format_context retrieved_docs
      (retrieved_docs, llmChain user_message formatted_context)
  let retrieved_docs := retrieved_answer.1
  let answer := retrieved_answer.2
  -- words = answer.split(); full_answer accumulates "word + ' '", then .strip()
  let words := pySplit answer
  let full_answer := pyStrip (words.foldl (fun acc w => acc ++ w ++ " ") "")
  let assistant_id := freshId (st.messages.map (·.id))
  let assistant_msg : MessageRow :=
    { id := assistant_id, conversation_id := conversation_id, role := "assistant",
      content := full_answer }
  let citBase := freshId (st.citations.map (·.id))
  let new_citations := (retrieved_docs.enum).map (fun idoc =>
    make_citation st assistant_id (citBase + idoc.1) idoc.2)
  let cur : DBState := { st with
    messages := st.messages ++ [assistant_msg],
    citations := st.citations ++ new_citations }
  if commitOk then ⟨cur, cur, .doneEvent⟩
  else ⟨st, cur, .errorEvent⟩

/-! ## General lemmas -/

theorem foldl_append_retrieve (r : String → List Doc) :
    ∀ (l : List String) (init : List Doc),
      l.foldl (fun acc q => acc ++ r q) init = init ++ (l.map r).flatten := by
  intro l
  induction l with
  | nil => intro init; simp
  | cons q qs ih => intro init; simp [List.foldl_cons, ih, List.append_assoc]

/-! ### Decimal rendering of user ids

Python's `str(user_id)` is modelled by `toString`, i.e. `Nat.repr`.  The
authorization claim needs that distinct ids render to distinct strings and
that no id renders to `"global"`; we derive both from `Nat.digits`. -/

theorem toDigitsCore_eq_digits : ∀ n f : Nat, ∀ acc : List Char, 0 < n → n < f →
    Nat.toDigitsCore 10 f n acc = ((Nat.digits 10 n).map Nat.digitChar).reverse ++ acc := by
  intro n
  induction n using Nat.strong_induction_on with
  | _ n ih =>
    intro f acc hn hf
    match f, hf with
    | f + 1, hf =>
      show (if n / 10 = 0 then Nat.digitChar (n % 10) :: acc
            else Nat.toDigitsCore 10 f (n / 10) (Nat.digitChar (n % 10) :: acc)) = _
      by_cases h0 : n / 10 = 0
      · rw [if_pos h0, Nat.digits_def' (by norm_num : (1 : ℕ) < 10) hn, h0, Nat.digits_zero]
        simp
      · rw [if_neg h0]
        have hlt : n / 10 < n := Nat.div_lt_self hn (by norm_num)
        have hf' : n / 10 < f := lt_of_lt_of_le hlt (Nat.lt_succ_iff.mp hf)
        rw [ih (n / 10) hlt f (Nat.digitChar (n % 10) :: acc)
          (Nat.pos_of_ne_zero h0) hf']
        rw [Nat.digits_def' (by norm_num : (1 : ℕ) < 10) hn]
        simp

theorem natRepr_eq_digits (n : Nat) (hn : 0 < n) :
    Nat.repr n = (((Nat.digits 10 n).map Nat.digitChar).reverse).asString := by
  show (Nat.toDigits 10 n).asString = _
  unfold Nat.toDigits
  rw [toDigitsCore_eq_digits n (n + 1) [] hn (Nat.lt_succ_self n)]
  simp

theorem digitChar_inj_lt : ∀ a, a < 10 → ∀ b, b < 10 →
    Nat.digitChar a = Nat.digitChar b → a = b := by decide

theorem digitChar_ne_g : ∀ a, a < 10 → Nat.digitChar a ≠ 'g' := by decide

theorem map_digitChar_inj : ∀ l₁ l₂ : List Nat, (∀ x ∈ l₁, x < 10) → (∀ x ∈ l₂, x < 10) →
    l₁.map Nat.digitChar = l₂.map Nat.digitChar → l₁ = l₂ := by
  intro l₁
  induction l₁ with
  | nil =>
    intro l₂ _ _ h
    cases l₂ with
    | nil => rfl
    | cons b bs => simp at h
  | cons a as ih =>
    intro l₂ h₁ h₂ h
    cases l₂ with
    | nil => simp at h
    | cons b bs =>
      simp only [List.map_cons, List.cons.injEq] at h
      have hab : a = b := digitChar_inj_lt a (h₁ a (by simp)) b (h₂ b (by simp)) h.1
      subst hab
      rw [ih bs (fun x hx => h₁ x (by simp [hx])) (fun x hx => h₂ x (by simp [hx])) h.2]

theorem asString_inj {l₁ l₂ : List Char} (h : l₁.asString = l₂.asString) : l₁ = l₂ := by
  have := congrArg String.data h
  simpa [List.asString] using this

theorem natRepr_injective : Function.Injective Nat.repr := by
  have zero_case : ∀ n : Nat, 0 < n → Nat.repr 0 = Nat.repr n → False := by
    intro n hn h
    rw [natRepr_eq_digits n hn] at h
    have h0 : Nat.repr 0 = (['0'] : List Char).asString := rfl
    have h' := asString_inj (h0 ▸ h)
    have h'' := congrArg List.reverse h'
    simp only [List.reverse_reverse] at h''
    -- the digit list of n maps to ['0'], so digits 10 n = [0] and n = 0
    cases hd : Nat.digits 10 n with
    | nil => rw [hd] at h''; simp at h''
    | cons d ds =>
      rw [hd] at h''
      cases ds with
      | cons e es => simp at h''
      | nil =>
        simp only [List.map_cons, List.map_nil, List.reverse_cons, List.reverse_nil,
          List.nil_append, List.cons.injEq, and_true] at h''
        have hd10 : d < 10 := Nat.digits_lt_base (by norm_num) (by rw [hd]; simp)
        have hd0 : d = 0 := digitChar_inj_lt d hd10 0 (by norm_num) h''.symm
        have hofd := Nat.ofDigits_digits 10 n
        rw [hd, hd0] at hofd
        simp [Nat.ofDigits] at hofd
        omega
  intro m n h
  rcases Nat.eq_zero_or_pos m with rfl | hm
  · rcases Nat.eq_zero_or_pos n with rfl | hn
    · rfl
    · exact absurd h (fun hc => zero_case n hn hc)
  · rcases Nat.eq_zero_or_pos n with rfl | hn
    · exact absurd h.symm (fun hc => zero_case m hm hc)
    · rw [natRepr_eq_digits m hm, natRepr_eq_digits n hn] at h
      have h' := asString_inj h
      have h'' := congrArg List.reverse h'
      simp only [List.reverse_reverse] at h''
      have hd := map_digitChar_inj _ _
        (fun x hx => Nat.digits_lt_base (by norm_num) hx)
        (fun x hx => Nat.digits_lt_base (by norm_num) hx) h''
      have hm' := Nat.ofDigits_digits 10 m
      have hn' := Nat.ofDigits_digits 10 n
      rw [hd] at hm'
      omega

theorem natRepr_ne_global (n : Nat) : Nat.repr n ≠ "global" := by
  rcases Nat.eq_zero_or_pos n with rfl | hn
  · decide
  · intro h
    rw [natRepr_eq_digits n hn] at h
    have h' := asString_inj
      (h.trans (show "global" = (['g', 'l', 'o', 'b', 'a', 'l'] : List Char).asString from rfl))
    have hg : 'g' ∈ ((Nat.digits 10 n).map Nat.digitChar).reverse := by rw [h']; simp
    rw [List.mem_reverse] at hg
    obtain ⟨d, hd, hdc⟩ := List.mem_map.mp hg
    exact digitChar_ne_g d (Nat.digits_lt_base (by norm_num) hd) hdc

/-! ## Claims -/

/-- C1: every document surviving the post-filter run on behalf of user `A`
carries an owner tag in the allow-list of `A` (the rendered id of `A`,
`"global"`, or `None` for absent), and in particular never the rendered id
of a different user `B`. -/
theorem C1_filter_allowed_authorization (A B : Nat) (docs : List Doc) (d : Doc)
    (hAB : A ≠ B) (hd : d ∈ filter_allowed A docs) :
    dictGet d.metadata "user_id" ∈ allowed_user_ids A ∧
    dictGet d.metadata "user_id" ≠ .vStr (toString B) := by
  have hmem : dictGet d.metadata "user_id" ∈ allowed_user_ids A := by
    have := (List.mem_filter.mp hd).2
    simpa using this
  refine ⟨hmem, ?_⟩
  intro hB
  rw [hB] at hmem
  simp only [allowed_user_ids, List.mem_cons, List.not_mem_nil, or_false,
    PyVal.vStr.injEq, reduceCtorEq] at hmem
  rcases hmem with h | h
  · exact hAB (natRepr_injective (show Nat.repr A = Nat.repr B from h.symm))
  · exact natRepr_ne_global B h

/-- C1 witness: user 1's own passage passes user 1's filter and its tag is
not user 2's id. -/
theorem C1_witness :
    (1 : Nat) ≠ 2 ∧
    ((⟨"x", [("user_id", PyVal.vStr "1")]⟩ : Doc) ∈
      filter_allowed 1 [⟨"x", [("user_id", PyVal.vStr "1")]⟩]) ∧
    dictGet (Doc.mk "x" [("user_id", PyVal.vStr "1")]).metadata "user_id"
      ≠ PyVal.vStr (toString (2 : Nat)) :=
  ⟨by decide, by decide,
   (C1_filter_allowed_authorization 1 2 [⟨"x", [("user_id", PyVal.vStr "1")]⟩]
     ⟨"x", [("user_id", PyVal.vStr "1")]⟩ (by decide) (by decide)).2⟩

/-- C3: `filter_to_minimal_docs` keeps the list length and every document's
`page_content`; each output document's metadata has exactly the keys
`source` and `page`, whose values round-trip from the input when those keys
are present; every other metadata key is dropped. -/
theorem C3_filter_to_minimal_docs_roundtrip (docs : List Doc) (i : Nat) (d : Doc)
    (hget : docs[i]? = some d) (sv pv : PyVal)
    (hs : dictLookup d.metadata "source" = some sv)
    (hp : dictLookup d.metadata "page" = some pv) :
    (filter_to_minimal_docs docs).length = docs.length ∧
    ∃ o, (filter_to_minimal_docs docs)[i]? = some o ∧
      o.page_content = d.page_content ∧
      o.metadata.map Prod.fst = ["source", "page"] ∧
      dictLookup o.metadata "source" = some sv ∧
      dictLookup o.metadata "page" = some pv := by
  constructor
  · simp [filter_to_minimal_docs]
  · refine ⟨⟨d.page_content,
        [("source", dictGet d.metadata "source"),
         ("page", dictGetD d.metadata "page" (.vInt 0))]⟩,
      ?_, rfl, rfl, ?_, ?_⟩
    · simp [filter_to_minimal_docs, hget]
    · have h1 : dictGet d.metadata "source" = sv := by simp [dictGet, hs]
      simp [h1, dictLookup, List.find?]
    · have h2 : dictGetD d.metadata "page" (.vInt 0) = pv := by simp [dictGetD, hp]
      simp [h2, dictLookup, List.find?]

/-- C3 witness: a concrete document with metadata keys source, page and an
extra key. -/
theorem C3_witness :
    ([(⟨"text", [("source", PyVal.vStr "a.pdf"), ("page", PyVal.vInt 3),
        ("extra", PyVal.vStr "e")]⟩ : Doc)][0]? =
      some ⟨"text", [("source", PyVal.vStr "a.pdf"), ("page", PyVal.vInt 3),
        ("extra", PyVal.vStr "e")]⟩) ∧
    (filter_to_minimal_docs
        [⟨"text", [("source", PyVal.vStr "a.pdf"), ("page", PyVal.vInt 3),
                   ("extra", PyVal.vStr "e")]⟩]).length = 1 := by
  refine ⟨by decide, ?_⟩
  exact (C3_filter_to_minimal_docs_roundtrip
    [⟨"text", [("source", PyVal.vStr "a.pdf"), ("page", PyVal.vInt 3),
               ("extra", PyVal.vStr "e")]⟩]
    0 ⟨"text", [("source", PyVal.vStr "a.pdf"), ("page", PyVal.vInt 3),
               ("extra", PyVal.vStr "e")]⟩
    (by decide) (PyVal.vStr "a.pdf") (PyVal.vInt 3) (by decide) (by decide)).1

/-- C10: `analyze_query_complexity` is total over the model output: the
returned `type` is always `direct` or `multi_hop`, and an output starting
with neither prefix is returned verbatim as a `direct` answer. -/
theorem C10_analyze_query_complexity_total (llmAnalyze : String → String → String)
    (jsonLoads : String → Option (List String)) (question context : String) :
    ((analyze_query_complexity llmAnalyze jsonLoads question context).type = "direct" ∨
     (analyze_query_complexity llmAnalyze jsonLoads question context).type = "multi_hop") ∧
    (pyStartsWith (llmAnalyze question context) "DIRECT:" = false →
     pyStartsWith (llmAnalyze question context) "MULTI_HOP:" = false →
     analyze_query_complexity llmAnalyze jsonLoads question context =
       { type := "direct", answer := some (llmAnalyze question context),
         sub_questions := none }) := by
  constructor
  · by_cases hd : pyStartsWith (llmAnalyze question context) "DIRECT:" = true
    · left; simp [analyze_query_complexity, hd]
    · by_cases hm : pyStartsWith (llmAnalyze question context) "MULTI_HOP:" = true
      · cases hj : jsonLoads
            (pyStrip (pyReplace (llmAnalyze question context) "MULTI_HOP:" "")) with
        | some s => right; simp [analyze_query_complexity, hd, hm, hj]
        | none => left; simp [analyze_query_complexity, hd, hm, hj]
      · left; simp [analyze_query_complexity, hd, hm]
  · intro hd hm
    simp [analyze_query_complexity, hd, hm]

/-- C10 witness: the model output "hello" has neither prefix and is returned
verbatim. -/
theorem C10_witness :
    pyStartsWith "hello" "DIRECT:" = false ∧
    analyze_query_complexity (fun _ _ => "hello") (fun _ => none) "q" "c" =
      { type := "direct", answer := some "hello", sub_questions := none } :=
  ⟨by decide,
   (C10_analyze_query_complexity_total (fun _ _ => "hello") (fun _ => none) "q" "c").2
     (by decide) (by decide)⟩

/-- A model output starting with "MULTI_HOP:" does not start with "DIRECT:"
(their first characters differ). -/
theorem pyStartsWith_multi_hop_not_direct (r : String)
    (h : pyStartsWith r "MULTI_HOP:" = true) :
    pyStartsWith r "DIRECT:" = false := by
  unfold pyStartsWith at *
  cases hr : r.data with
  | nil => rw [hr] at h; simp [List.isPrefixOf] at h
  | cons c cs =>
    rw [hr] at h
    simp only [show ("MULTI_HOP:").data = 'M' :: "ULTI_HOP:".data from rfl,
      List.isPrefixOf, Bool.and_eq_true, beq_iff_eq] at h
    have hDM : (('D' : Char) == 'M') = false := by decide
    simp [show ("DIRECT:").data = 'D' :: "IRECT:".data from rfl, List.isPrefixOf,
      ← h.1, hDM]

/-- C5: when the model output is classified MULTI_HOP and the sub-question
text fails to parse (`json.loads` raises, modelled by the parsing oracle
returning `none`), `analyze_query_complexity` does not raise but returns a
`direct` result carrying the fixed fallback message. -/
theorem C5_parse_failure_fallback (llmAnalyze : String → String → String)
    (jsonLoads : String → Option (List String)) (question context : String)
    (hmh : pyStartsWith (llmAnalyze question context) "MULTI_HOP:" = true)
    (hfail : jsonLoads
        (pyStrip (pyReplace (llmAnalyze question context) "MULTI_HOP:" "")) = none) :
    analyze_query_complexity llmAnalyze jsonLoads question context =
      { type := "direct",
        answer := some "Unable to parse multi-hop analysis. Proceeding with direct answer.",
        sub_questions := none } := by
  unfold analyze_query_complexity
  simp [pyStartsWith_multi_hop_not_direct _ hmh, hmh, hfail]

/-- C5 witness: a MULTI_HOP-classified output whose sub-question text the
parser rejects. -/
theorem C5_witness :
    pyStartsWith "MULTI_HOP: [not json" "MULTI_HOP:" = true ∧
    analyze_query_complexity (fun _ _ => "MULTI_HOP: [not json") (fun _ => none) "q" "c" =
      { type := "direct",
        answer := some "Unable to parse multi-hop analysis. Proceeding with direct answer.",
        sub_questions := none } :=
  ⟨by decide,
   C5_parse_failure_fallback (fun _ _ => "MULTI_HOP: [not json") (fun _ => none) "q" "c"
     (by decide) rfl⟩

/-- C4: in the multi-hop branch, at most `max_hops` sub-questions are
explored; the reasoning chain is the rewritten query followed by exactly the
explored sub-questions, the used context is the initial retrieval followed
by the per-sub-question retrievals in order, and the answer is the single
synthesis call on the original question, the explored sub-questions, and the
concatenation of all retrieved passages. -/
theorem C4_multi_hop_reasoning_shape (llmRewrite : String → String)
    (llmAnalyze : String → String → String) (jsonLoads : String → Option (List String))
    (llmSynth : String → String → String → String) (retriever : String → List Doc)
    (original_query : String) (max_hops : Nat) (subqs : List String)
    (hanalysis : analyze_query_complexity llmAnalyze jsonLoads
        (rewrite_query llmRewrite original_query)
        (String.intercalate "\n\n"
          ((retriever (rewrite_query llmRewrite original_query)).map (·.page_content)))
      = { type := "multi_hop", answer := none, sub_questions := some subqs }) :
    (subqs.take max_hops).length ≤ max_hops ∧
    (multi_hop_reasoning llmRewrite llmAnalyze jsonLoads llmSynth retriever
        original_query max_hops).reasoning_chain
      = rewrite_query llmRewrite original_query :: subqs.take max_hops ∧
    (multi_hop_reasoning llmRewrite llmAnalyze jsonLoads llmSynth retriever
        original_query max_hops).context_used
      = retriever (rewrite_query llmRewrite original_query) ++
        ((subqs.take max_hops).map retriever).flatten ∧
    (multi_hop_reasoning llmRewrite llmAnalyze jsonLoads llmSynth retriever
        original_query max_hops).answer
      = llmSynth original_query
          (String.intercalate "\n" ((subqs.take max_hops).map (fun q => "- " ++ q)))
          (String.intercalate "\n\n"
            ((retriever (rewrite_query llmRewrite original_query) ++
              ((subqs.take max_hops).map retriever).flatten).map (·.page_content))) := by
  refine ⟨List.length_take_le _ _, ?_, ?_, ?_⟩ <;>
    simp [multi_hop_reasoning, hanalysis, foldl_append_retrieve]

/-- C4 witness: three sub-questions, `max_hops = 2`, so exactly two are
explored. -/
theorem C4_witness :
    analyze_query_complexity (fun _ _ => "MULTI_HOP: x") (fun _ => some ["a", "b", "c"])
        (rewrite_query (fun s => s) "q")
        (String.intercalate "\n\n"
          (((fun _ => ([] : List Doc)) (rewrite_query (fun s => s) "q")).map (·.page_content)))
      = { type := "multi_hop", answer := none, sub_questions := some ["a", "b", "c"] } ∧
    (multi_hop_reasoning (fun s => s) (fun _ _ => "MULTI_HOP: x")
        (fun _ => some ["a", "b", "c"]) (fun _ _ _ => "ans") (fun _ => []) "q"
        2).reasoning_chain = "q" :: ["a", "b"] := by
  have h : analyze_query_complexity (fun _ _ => "MULTI_HOP: x")
      (fun _ => some ["a", "b", "c"]) (rewrite_query (fun s => s) "q")
      (String.intercalate "\n\n"
        (((fun _ => ([] : List Doc)) (rewrite_query (fun s => s) "q")).map (·.page_content)))
      = { type := "multi_hop", answer := none, sub_questions := some ["a", "b", "c"] } := by
    decide
  refine ⟨h, ?_⟩
  have := (C4_multi_hop_reasoning_shape (fun s => s) (fun _ _ => "MULTI_HOP: x")
    (fun _ => some ["a", "b", "c"]) (fun _ _ _ => "ans") (fun _ => []) "q" 2
    ["a", "b", "c"] h).2.1
  rw [this]
  decide

/-- C2 counterexample: the composed retrieval does NOT deduplicate.  When the
same allowed passage is returned by both the global and the user-scoped
search, it appears twice in the result, so the output is not a deduplicated
list. -/
theorem C2_counterexample :
    ¬ (filtered_retrieve 1 (fun _ => [⟨"passage", [("user_id", PyVal.vStr "1")]⟩])
        (fun _ => [⟨"passage", [("user_id", PyVal.vStr "1")]⟩]) true "q").Nodup := by
  decide

/-- C2 amended: the composed retrieval (both the advanced-path
`filtered_retrieve` and the inlined simple-path block) returns exactly the
post-filtered global results concatenated with the post-filtered
user-specific results — duplicates across (or within) the two result sets
are retained, and there is no re-ranking by score across them. -/
theorem C2_amended_concatenation_no_dedup (user_id : Nat)
    (baseSearch userSearch : String → List Doc) (userActive : Bool) (query : String) :
    filtered_retrieve user_id baseSearch userSearch userActive query
      = filter_allowed user_id (baseSearch query) ++
        (if userActive then filter_allowed user_id (userSearch query) else []) ∧
    simple_retrieve user_id baseSearch userSearch userActive query
      = filtered_retrieve user_id baseSearch userSearch userActive query := by
  cases userActive <;> simp [filtered_retrieve, simple_retrieve]

/-- C8: an upload whose filename does not end in `.pdf` (case-insensitive)
is rejected with a 400 response before any database mutation: the committed
state and the session state are both unchanged, so no Document row is
created. -/
theorem C8_non_pdf_upload_rejected (st : DBState) (uid : Nat) (filename : String)
    (unique_filename file_path : String) (file_size : Nat)
    (loadedPdf : Except String (List Doc)) (splitFn : List Doc → List Doc)
    (vecOk commitOk : Bool)
    (h : pyEndsWith (pyLower filename) ".pdf" = false) :
    upload_document st uid (some filename) unique_filename file_path file_size
        loadedPdf splitFn vecOk commitOk = ⟨st, st, .http 400⟩ := by
  by_cases hf : filename = "" <;> simp [upload_document, hf, h]

/-- C8 witness: a `.txt` upload is rejected with the state unchanged. -/
theorem C8_witness :
    pyEndsWith (pyLower "notes.txt") ".pdf" = false ∧
    upload_document ⟨[], [], [], [], [], []⟩ 1 (some "notes.txt") "u_notes.txt"
        "data/uploads/u_notes.txt" 10 (.ok []) (fun l => l) true true
      = ⟨⟨[], [], [], [], [], []⟩, ⟨[], [], [], [], [], []⟩, .http 400⟩ :=
  ⟨by decide,
   C8_non_pdf_upload_rejected ⟨[], [], [], [], [], []⟩ 1 "notes.txt" "u_notes.txt"
     "data/uploads/u_notes.txt" 10 (.ok []) (fun l => l) true true (by decide)⟩

/-! ### Lemmas about `updateFirst` -/

theorem updateFirst_length (p : α → Bool) (g : α → α) :
    ∀ l : List α, (updateFirst p g l).length = l.length := by
  intro l
  induction l with
  | nil => rfl
  | cons x xs ih =>
    by_cases hx : p x <;> simp [updateFirst, hx, ih]

theorem filter_updateFirst_length (p q : α → Bool) (g : α → α)
    (hg : ∀ a, q (g a) = q a) :
    ∀ l : List α, ((updateFirst p g l).filter q).length = (l.filter q).length := by
  intro l
  induction l with
  | nil => rfl
  | cons x xs ih =>
    by_cases hx : p x
    · by_cases hq : q x <;> simp [updateFirst, hx, List.filter_cons, hg, hq]
    · by_cases hq : q x <;> simp [updateFirst, hx, List.filter_cons, hq, ih]

/-- The number of Feedback rows for a `(user, message)` pair. -/
def feedbackCountFor (st : DBState) (uid mid : Nat) : Nat :=
  (st.feedbacks.filter (fun f => decide (f.message_id = mid ∧ f.user_id = uid))).length

/-- C7: submitting feedback for a `(user, message)` pair that already has a
Feedback row updates that row's rating and comment in place and creates no
second row (the session's feedback list is exactly an in-place update of the
first matching row, with unchanged length); and on every path — update,
insert, or validation failure — the number of Feedback rows for the pair
never exceeds one if it did not before. -/
theorem C7_feedback_single_row (st : DBState) (uid mid : Nat)
    (rating comment : String) (commitOk : Bool) :
    (feedbackCountFor st uid mid ≤ 1 →
      feedbackCountFor (submit_feedback st uid (some mid) rating comment commitOk).cur
        uid mid ≤ 1) ∧
    ((st.feedbacks.find? (fun f => decide (f.message_id = mid ∧ f.user_id = uid))).isSome →
      mid ≠ 0 → (rating = "positive" ∨ rating = "negative") →
      ∀ message, st.messages.find? (fun m => decide (m.id = mid)) = some message →
      ∀ conversation, st.conversations.find?
          (fun cv => decide (cv.id = message.conversation_id)) = some conversation →
      conversation.user_id = uid →
      (submit_feedback st uid (some mid) rating comment commitOk).cur.feedbacks
        = updateFirst (fun f => decide (f.message_id = mid ∧ f.user_id = uid))
            (fun f => { f with rating := rating, comment := comment }) st.feedbacks ∧
      (submit_feedback st uid (some mid) rating comment commitOk).cur.feedbacks.length
        = st.feedbacks.length) := by
  constructor
  · intro h
    simp only [submit_feedback]
    split
    · exact h
    · split
      · exact h
      · split
        · exact h
        · split
          · exact h
          · -- validated region: update or insert, committed or not
            cases hfind : st.feedbacks.find?
                (fun f => decide (f.message_id = mid ∧ f.user_id = uid)) with
            | some f =>
              have hcnt := filter_updateFirst_length
                (fun f => decide (f.message_id = mid) && decide (f.user_id = uid))
                (fun f => decide (f.message_id = mid) && decide (f.user_id = uid))
                (fun f => { f with rating := rating, comment := comment })
                (fun a => rfl) st.feedbacks
              cases commitOk <;> simp only [hfind] <;>
                simpa [feedbackCountFor, hcnt] using h
            | none =>
              have hall : ∀ a ∈ st.feedbacks, a.message_id = mid → ¬a.user_id = uid := by
                intro a ha hm hu
                have := List.find?_eq_none.mp hfind a ha
                simp [hm, hu] at this
              cases commitOk <;> simp only [hfind] <;>
                simp [feedbackCountFor, List.filter_append, List.filter_cons, hall] <;>
                exact hall
  · intro hex hmid hrat message hmsg conversation hconv huser
    obtain ⟨f, hf⟩ := Option.isSome_iff_exists.mp hex
    have hcond : ¬ ((some mid : Option Nat) = none ∨ (some mid : Option Nat) = some 0 ∨
        (rating ≠ "positive" ∧ rating ≠ "negative")) := by
      rcases hrat with h | h <;> simp [hmid, h]
    simp only [submit_feedback, if_neg hcond, hmsg, hconv, hf]
    have huser' : ¬ conversation.user_id ≠ uid := by simp [huser]
    simp only [if_neg huser']
    cases commitOk <;> simp [updateFirst_length]

/-- C7 witness: a second submission for an existing `(user 1, message 1)`
feedback row keeps a single row. -/
theorem C7_witness :
    ((([{ id := 1, user_id := 1, message_id := 1, rating := "positive",
          comment := "" }] : List FeedbackRow).find?
        (fun f => decide (f.message_id = 1 ∧ f.user_id = 1))).isSome) ∧
    (submit_feedback
        ⟨[], [], [⟨1, 1⟩], [⟨1, 1, "user", "hi"⟩], [],
         [{ id := 1, user_id := 1, message_id := 1, rating := "positive", comment := "" }]⟩
        1 (some 1) "negative" "bad" true).cur.feedbacks.length
      = ([{ id := 1, user_id := 1, message_id := 1, rating := "positive",
            comment := "" }] : List FeedbackRow).length :=
  ⟨by decide,
   ((C7_feedback_single_row
      ⟨[], [], [⟨1, 1⟩], [⟨1, 1, "user", "hi"⟩], [],
       [{ id := 1, user_id := 1, message_id := 1, rating := "positive", comment := "" }]⟩
      1 1 "negative" "bad" true).2 (by decide) (by decide) (Or.inr rfl)
      ⟨1, 1, "user", "hi"⟩ (by decide) ⟨1, 1⟩ (by decide) rfl).2⟩

/-- Reduction of `delete_document` with a found document and a successful
commit; the right-hand side is the body with the `let` bindings inlined. -/
theorem delete_document_found (st : DBState) (uid doc_id : Nat) (doc : DocumentRow)
    (hfind : st.documents.find? (fun d => decide (d.id = doc_id ∧ d.user_id = uid))
      = some doc) :
    delete_document st uid doc_id true =
      ⟨⟨st.documents.filter (fun d => !decide (d.id = doc.id)),
        st.chunks.filter (fun c => !decide (c.document_id = doc.id)),
        st.conversations, st.messages,
        st.citations.map (fun c =>
          if decide (c.document_id = some doc.id) ||
              ((st.chunks.filter (fun ch => decide (ch.document_id = doc.id))).map
                (·.id)).any (fun k => decide (c.chunk_id = some k)) then
            { c with
              chunk_id := if ((st.chunks.filter
                    (fun ch => decide (ch.document_id = doc.id))).map (·.id)).any
                    (fun k => decide (c.chunk_id = some k)) then none
                else c.chunk_id,
              document_id := if decide (c.document_id = some doc.id) then none
                else c.document_id }
          else c),
        st.feedbacks⟩,
       ⟨st.documents.filter (fun d => !decide (d.id = doc.id)),
        st.chunks.filter (fun c => !decide (c.document_id = doc.id)),
        st.conversations, st.messages,
        st.citations.map (fun c =>
          if decide (c.document_id = some doc.id) ||
              ((st.chunks.filter (fun ch => decide (ch.document_id = doc.id))).map
                (·.id)).any (fun k => decide (c.chunk_id = some k)) then
            { c with
              chunk_id := if ((st.chunks.filter
                    (fun ch => decide (ch.document_id = doc.id))).map (·.id)).any
                    (fun k => decide (c.chunk_id = some k)) then none
                else c.chunk_id,
              document_id := if decide (c.document_id = some doc.id) then none
                else c.document_id }
          else c),
        st.feedbacks⟩,
       .http 200⟩ := by
  unfold delete_document
  rw [hfind]
  exact rfl

/-- C6 counterexample: a citation that references the deleted document via
`document_id` but whose `chunk_id` points at a chunk of a DIFFERENT document
keeps its `chunk_id` — the code nulls each reference field only when that
field matches the deleted document, not both fields of every citation that
referenced it.  Here citation 1 references document 1 and chunk 20, where
chunk 20 belongs to document 2; deleting document 1 nulls `document_id` but
leaves `chunk_id = 20`. -/
theorem C6_counterexample :
    ((⟨[⟨1, 1, "f1", "f1", "p1", 0, true⟩, ⟨2, 1, "f2", "f2", "p2", 0, true⟩],
       [⟨10, 1, 0, none, ""⟩, ⟨20, 2, 0, none, ""⟩], [], [],
       [⟨1, 1, some 1, some 20, none, 0, ""⟩], []⟩ : DBState).citations.map
        (fun c => (c.document_id, c.chunk_id)) = [(some 1, some 20)]) ∧
    (delete_document
        ⟨[⟨1, 1, "f1", "f1", "p1", 0, true⟩, ⟨2, 1, "f2", "f2", "p2", 0, true⟩],
         [⟨10, 1, 0, none, ""⟩, ⟨20, 2, 0, none, ""⟩], [], [],
         [⟨1, 1, some 1, some 20, none, 0, ""⟩], []⟩ 1 1 true).base.citations.map
        (fun c => (c.document_id, c.chunk_id)) = [(none, some 20)] := by
  constructor <;> decide

/-- C6 amended: deleting a Document sets `document_id` to null on exactly the
citations whose `document_id` referenced it and `chunk_id` to null on exactly
the citations whose `chunk_id` referenced one of its chunks; no Citation row
is deleted (the citation list is an in-place per-row update of those two
fields only), and all the document's DocumentChunk rows are deleted. -/
theorem C6_amended_delete_document_nulls_refs (st : DBState) (uid doc_id : Nat)
    (doc : DocumentRow)
    (hfind : st.documents.find? (fun d => decide (d.id = doc_id ∧ d.user_id = uid))
      = some doc) :
    (delete_document st uid doc_id true).outcome = .http 200 ∧
    (delete_document st uid doc_id true).base.citations.length = st.citations.length ∧
    (delete_document st uid doc_id true).base.citations
      = st.citations.map (fun c =>
          { c with
            document_id := if c.document_id = some doc.id then none else c.document_id,
            chunk_id := if c.chunk_id ∈ ((st.chunks.filter
                  (fun ch => decide (ch.document_id = doc.id))).map (·.id)).map some
              then none else c.chunk_id }) ∧
    (delete_document st uid doc_id true).base.chunks
      = st.chunks.filter (fun c => !decide (c.document_id = doc.id)) ∧
    (∀ c ∈ (delete_document st uid doc_id true).base.chunks, c.document_id ≠ doc.id) ∧
    (delete_document st uid doc_id true).base.documents
      = st.documents.filter (fun d => !decide (d.id = doc.id)) := by
  have hdel := delete_document_found st uid doc_id doc hfind
  refine ⟨by rw [hdel], by rw [hdel]; simp, ?_, by rw [hdel], ?_, by rw [hdel]⟩
  · rw [hdel]
    show List.map _ st.citations = _
    apply List.map_congr_left
    intro c _
    have hiff : (((st.chunks.filter
          (fun ch => decide (ch.document_id = doc.id))).map (·.id)).any
            (fun k => decide (c.chunk_id = some k)) = true) ↔
        c.chunk_id ∈ ((st.chunks.filter
          (fun ch => decide (ch.document_id = doc.id))).map (·.id)).map some := by
      constructor
      · intro h
        obtain ⟨k, hk, he⟩ := List.any_eq_true.mp h
        exact List.mem_map.mpr ⟨k, hk, (of_decide_eq_true he).symm⟩
      · intro h
        obtain ⟨k, hk, he⟩ := List.mem_map.mp h
        exact List.any_eq_true.mpr ⟨k, hk, decide_eq_true he.symm⟩
    cases hany : ((st.chunks.filter
        (fun ch => decide (ch.document_id = doc.id))).map (·.id)).any
        (fun k => decide (c.chunk_id = some k)) with
    | true =>
      have hmem := hiff.mp hany
      rw [if_pos hmem]
      by_cases hdoc : c.document_id = some doc.id
      · rw [if_pos hdoc]; simp [hany, decide_eq_true hdoc]
      · rw [if_neg hdoc]; simp [hany, decide_eq_false hdoc]
    | false =>
      have hmem : ¬ c.chunk_id ∈ ((st.chunks.filter
          (fun ch => decide (ch.document_id = doc.id))).map (·.id)).map some :=
        fun h => by simp [hiff.mpr h] at hany
      rw [if_neg hmem]
      by_cases hdoc : c.document_id = some doc.id
      · rw [if_pos hdoc]; simp [hany, decide_eq_true hdoc]
      · rw [if_neg hdoc]; simp [hany, decide_eq_false hdoc]
  · rw [hdel]
    intro c hc
    have := (List.mem_filter.mp hc).2
    simpa using this

/-- C6 witness for the amended statement: deleting document 1 nulls the
matching references and removes its chunks on a concrete state. -/
theorem C6_witness :
    ((⟨[⟨1, 1, "f1", "f1", "p1", 0, true⟩],
       [⟨10, 1, 0, none, ""⟩], [], [],
       [⟨1, 1, some 1, some 10, none, 0, ""⟩], []⟩ : DBState).documents.find?
        (fun d => decide (d.id = 1 ∧ d.user_id = 1))
      = some ⟨1, 1, "f1", "f1", "p1", 0, true⟩) ∧
    (delete_document
        ⟨[⟨1, 1, "f1", "f1", "p1", 0, true⟩],
         [⟨10, 1, 0, none, ""⟩], [], [],
         [⟨1, 1, some 1, some 10, none, 0, ""⟩], []⟩ 1 1 true).outcome = .http 200 :=
  ⟨by decide,
   (C6_amended_delete_document_nulls_refs
      ⟨[⟨1, 1, "f1", "f1", "p1", 0, true⟩],
       [⟨10, 1, 0, none, ""⟩], [], [],
       [⟨1, 1, some 1, some 10, none, 0, ""⟩], []⟩ 1 1
      ⟨1, 1, "f1", "f1", "p1", 0, true⟩ (by decide)).1⟩

/-- C9 counterexample: the chat streaming generator does NOT roll back on
exception.  On a concrete state, when the final commit raises, the generator
yields the terminal error event while the session still holds the pending
assistant message (`cur ≠ base`), contradicting "the transaction is rolled
back before the error is surfaced" for the chat streaming path. -/
theorem C9_counterexample :
    (generate ⟨[], [], [⟨1, 1⟩], [⟨1, 1, "user", "hi"⟩], [], []⟩ 1 1 "hi" false
        (fun _ => []) (fun _ => []) (fun s => s) (fun _ _ => "x") (fun _ => none)
        (fun _ _ _ => "x") (fun _ _ => "answer") false).outcome = .errorEvent ∧
    (generate ⟨[], [], [⟨1, 1⟩], [⟨1, 1, "user", "hi"⟩], [], []⟩ 1 1 "hi" false
        (fun _ => []) (fun _ => []) (fun s => s) (fun _ _ => "x") (fun _ => none)
        (fun _ _ _ => "x") (fun _ _ => "answer") false).cur
      ≠ (generate ⟨[], [], [⟨1, 1⟩], [⟨1, 1, "user", "hi"⟩], [], []⟩ 1 1 "hi" false
        (fun _ => []) (fun _ => []) (fun s => s) (fun _ _ => "x") (fun _ => none)
        (fun _ _ _ => "x") (fun _ _ => "answer") false).base := by
  constructor <;> decide

/-- C9 amended: on exception, the upload, document-deletion and
vector-store-cleanup endpoints roll the transaction back before returning
the 500 error (committed and session state both revert to the entry state);
the feedback endpoint and the chat streaming path do not roll back — a
failed commit in `submit_feedback` propagates with the pending feedback row
still in the session, and the streaming generator emits the terminal error
event with the pending assistant message still in the session. -/
theorem C9_amended_rollback_coverage :
    -- upload: load_single_pdf raises → rollback, 500
    (∀ (st : DBState) (uid : Nat) (filename unique_filename file_path : String)
        (file_size : Nat) (err : String) (splitFn : List Doc → List Doc)
        (vecOk commitOk : Bool),
      filename ≠ "" → pyEndsWith (pyLower filename) ".pdf" = true →
      upload_document st uid (some filename) unique_filename file_path file_size
        (.error err) splitFn vecOk commitOk = ⟨st, st, .http 500⟩) ∧
    -- upload: vector_store.add_documents raises → rollback, 500
    (∀ (st : DBState) (uid : Nat) (filename unique_filename file_path : String)
        (file_size : Nat) (documents : List Doc) (splitFn : List Doc → List Doc)
        (commitOk : Bool),
      filename ≠ "" → pyEndsWith (pyLower filename) ".pdf" = true →
      (splitFn (filter_to_minimal_docs documents)).length ≠ 0 →
      upload_document st uid (some filename) unique_filename file_path file_size
        (.ok documents) splitFn false commitOk = ⟨st, st, .http 500⟩) ∧
    -- upload: the final commit raises → rollback, 500
    (∀ (st : DBState) (uid : Nat) (filename unique_filename file_path : String)
        (file_size : Nat) (documents : List Doc) (splitFn : List Doc → List Doc),
      filename ≠ "" → pyEndsWith (pyLower filename) ".pdf" = true →
      (splitFn (filter_to_minimal_docs documents)).length ≠ 0 →
      upload_document st uid (some filename) unique_filename file_path file_size
        (.ok documents) splitFn true false = ⟨st, st, .http 500⟩) ∧
    -- delete: the commit raises → rollback, 500
    (∀ (st : DBState) (uid doc_id : Nat) (doc : DocumentRow),
      st.documents.find? (fun d => decide (d.id = doc_id ∧ d.user_id = uid)) = some doc →
      delete_document st uid doc_id false = ⟨st, st, .http 500⟩) ∧
    -- cleanup: the commit raises → rollback, 500
    (∀ (st : DBState) (uid : Nat),
      cleanup_pinecone st uid false = ⟨st, st, .http 500⟩) ∧
    -- feedback: no handler; a failed commit propagates with the insert pending
    (∀ (st : DBState) (uid mid : Nat) (rating comment : String),
      mid ≠ 0 → (rating = "positive" ∨ rating = "negative") →
      ∀ message, st.messages.find? (fun m => decide (m.id = mid)) = some message →
      ∀ conversation, st.conversations.find?
          (fun cv => decide (cv.id = message.conversation_id)) = some conversation →
      conversation.user_id = uid →
      st.feedbacks.find? (fun f => decide (f.message_id = mid ∧ f.user_id = uid)) = none →
      (submit_feedback st uid (some mid) rating comment false).outcome = .raised ∧
      (submit_feedback st uid (some mid) rating comment false).base = st ∧
      (submit_feedback st uid (some mid) rating comment false).cur.feedbacks.length
        = st.feedbacks.length + 1) ∧
    -- streaming: the error event is emitted with the assistant message pending
    (∀ (st : DBState) (user_id conversation_id : Nat) (user_message : String)
        (use_advanced_rag : Bool) (baseSearch userSearch : String → List Doc)
        (llmRewrite : String → String) (llmAnalyze : String → String → String)
        (jsonLoads : String → Option (List String))
        (llmSynth : String → String → String → String)
        (llmChain : String → String → String),
      (generate st user_id conversation_id user_message use_advanced_rag baseSearch
          userSearch llmRewrite llmAnalyze jsonLoads llmSynth llmChain false).outcome
        = .errorEvent ∧
      (generate st user_id conversation_id user_message use_advanced_rag baseSearch
          userSearch llmRewrite llmAnalyze jsonLoads llmSynth llmChain false).base = st ∧
      (generate st user_id conversation_id user_message use_advanced_rag baseSearch
          userSearch llmRewrite llmAnalyze jsonLoads llmSynth llmChain false).cur.messages.length
        = st.messages.length + 1) := by
  refine ⟨?_, ?_, ?_, ?_, ?_, ?_, ?_⟩
  · intro st uid filename unique_filename file_path file_size err splitFn vecOk commitOk
      hne hpdf
    simp [upload_document, hne, hpdf]
  · intro st uid filename unique_filename file_path file_size documents splitFn commitOk
      hne hpdf hchunks
    simp [upload_document, hne, hpdf, hchunks]
  · intro st uid filename unique_filename file_path file_size documents splitFn
      hne hpdf hchunks
    simp [upload_document, hne, hpdf, hchunks]
  · intro st uid doc_id doc hfind
    unfold delete_document
    rw [hfind]
    exact rfl
  · intro st uid
    rfl
  · intro st uid mid rating comment hmid hrat message hmsg conversation hconv huser hnone
    have hnone' : st.feedbacks.find?
        (fun f => decide (f.message_id = mid) && decide (f.user_id = uid)) = none := by
      simpa using hnone
    have huser' : ¬ conversation.user_id ≠ uid := by simp [huser]
    rcases hrat with h | h <;> refine ⟨?_, ?_, ?_⟩ <;>
      simp [submit_feedback, hmid, h, hmsg, hconv, if_neg huser', hnone']
  · intro st user_id conversation_id user_message use_advanced_rag baseSearch userSearch
      llmRewrite llmAnalyze jsonLoads llmSynth llmChain
    refine ⟨rfl, rfl, ?_⟩
    simp [generate]

/-- C9 witness for the amended statement: concrete runs of the upload
commit-failure rollback, the delete commit-failure rollback, the feedback
commit-failure pending insert, and the streaming error event. -/
theorem C9_witness :
    pyEndsWith (pyLower "report.pdf") ".pdf" = true ∧
    upload_document ⟨[], [], [], [], [], []⟩ 1 (some "report.pdf") "u" "p" 5
        (.ok [⟨"text", []⟩]) (fun l => l) true false
      = ⟨⟨[], [], [], [], [], []⟩, ⟨[], [], [], [], [], []⟩, .http 500⟩ ∧
    delete_document ⟨[⟨1, 1, "f", "f", "p", 0, true⟩], [], [], [], [], []⟩ 1 1 false
      = ⟨⟨[⟨1, 1, "f", "f", "p", 0, true⟩], [], [], [], [], []⟩,
         ⟨[⟨1, 1, "f", "f", "p", 0, true⟩], [], [], [], [], []⟩, .http 500⟩ ∧
    (submit_feedback ⟨[], [], [⟨1, 1⟩], [⟨1, 1, "user", "hi"⟩], [], []⟩ 1 (some 1)
        "positive" "" false).cur.feedbacks.length = 0 + 1 ∧
    (generate ⟨[], [], [⟨1, 1⟩], [⟨1, 1, "user", "hi"⟩], [], []⟩ 1 1 "hi" false
        (fun _ => []) (fun _ => []) (fun s => s) (fun _ _ => "x") (fun _ => none)
        (fun _ _ _ => "x") (fun _ _ => "ok") false).outcome = .errorEvent :=
  ⟨by decide,
   C9_amended_rollback_coverage.2.2.1 ⟨[], [], [], [], [], []⟩ 1 "report.pdf" "u" "p" 5
     [⟨"text", []⟩] (fun l => l) (by decide) (by decide) (by decide),
   C9_amended_rollback_coverage.2.2.2.1 ⟨[⟨1, 1, "f", "f", "p", 0, true⟩], [], [], [], [], []⟩
     1 1 ⟨1, 1, "f", "f", "p", 0, true⟩ (by decide),
   (C9_amended_rollback_coverage.2.2.2.2.2.1 ⟨[], [], [⟨1, 1⟩], [⟨1, 1, "user", "hi"⟩], [], []⟩
     1 1 "positive" "" (by decide) (Or.inl rfl) ⟨1, 1, "user", "hi"⟩ (by decide)
     ⟨1, 1⟩ (by decide) rfl (by decide)).2.2,
   (C9_amended_rollback_coverage.2.2.2.2.2.2 ⟨[], [], [⟨1, 1⟩], [⟨1, 1, "user", "hi"⟩], [], []⟩
     1 1 "hi" false (fun _ => []) (fun _ => []) (fun s => s) (fun _ _ => "x") (fun _ => none)
     (fun _ _ _ => "x") (fun _ _ => "ok")).1⟩

end MedicalChatbot
